import Mathlib

/-
Verification of the Mimic socket layer (src/frontend/utils/socket.ts).

The Socket class multiplexes request/response calls and path-based change
subscriptions over one transport. We embed it shallowly: the mutable fields
of the class become a `SocketState` record, and every method or event handler
becomes a pure function returning the updated state together with the list of
externally visible effects (`Event`): frames sent over the transport, handler
invocations, log lines, configuration writes, and handler (de)attachments on
the transport. JS exceptions that propagate out of a method are modelled by an
`Option String` error component (the thrown message); effects performed before
the throw are kept, matching JS semantics.

Response bodies (`content: any`) are opaque to this layer and are modelled as
an abstract payload (a string), exactly as the code passes them through.
-/

namespace Mimic

/-- Opaque JSON payload: the socket layer never inspects `content`. -/
abbrev JsonValue := String

/-- A result from the LCU api: status code plus parsed response body. -/
structure Result where
  status : Int
  content : JsonValue
  deriving DecidableEq, Repr

/-- A compiled regular expression: its source text and its test function.
The socket layer only ever calls `test` and reads `source`. -/
structure Pattern where
  source : String
  test : String → Bool

/-- An observer matcher is either an exact path (a JS string) or a RegExp. -/
inductive Matcher where
  | exact (path : String)
  | pattern (p : Pattern)

/-- One entry of `this.observers`. Handlers are opaque callbacks; we identify
them by a number so that invocations can be recorded in the event trace. -/
structure Observation where
  matcher : Matcher
  handler : Nat

/-- WebSocket readyState values. -/
inductive ReadyState where
  | CONNECTING
  | OPEN
  | CLOSING
  | CLOSED
  deriving DecidableEq, Repr

/-- The transport (RiftSocket) as seen by the Socket class. -/
structure Transport where
  readyState : ReadyState
  deriving DecidableEq, Repr

/-- The mutable fields of the Socket class. `requests` is the JS object
mapping pending request ids to their completion callbacks (identified by
number, like handlers). -/
structure SocketState where
  connected : Bool
  connecting : Bool
  socket : Option Transport
  computerName : String
  computerVersion : String
  pushNotificationSubscriptionToken : String
  code : String
  idCounter : Nat
  observers : List Observation
  requests : List (Nat × Nat)

/-- Outbound wire frames, structurally (the JSON tuples the code sends). -/
inductive OutFrame where
  | handshake
  | subscribe (path : String)
  | unsubscribe (path : String)
  | request (id : Nat) (path : String) (method : String) (body : Option String)
  deriving DecidableEq, Repr

/-- Externally visible effects of one operation, in order of occurrence. -/
inductive Event where
  | send (frame : OutFrame)
  | invoke (handler : Nat) (res : Result)
  | log (msg : String)
  | configWrite (name : String)
  | setOnopen (attached : Bool)
  | setOnmessage (attached : Bool)
  | setOnclose (attached : Bool)
  | transportClose
  deriving DecidableEq, Repr

/-- Inbound messages after JSON parsing, following the `WebsocketMessage`
tuple shapes the code destructures. `other` covers tuples whose opcode matches
none of the three handled branches. -/
inductive WebsocketMessage where
  | update (path : String) (status : Int) (content : JsonValue)
  | response (id : Nat) (status : Int) (content : JsonValue)
  | handshakeComplete (version : String) (name : String) (token : String)
  | other

/-- A received text frame: either valid JSON (already destructured) or text
on which `JSON.parse` throws. -/
inductive ParsedFrame where
  | invalid (raw : String)
  | valid (msg : WebsocketMessage)

/-- The matching test used on UPDATE frames:
`typeof x.matcher === "string" ? data[1] === x.matcher : x.matcher.test(data[1])`. -/
def matcherTest (m : Matcher) (path : String) : Bool :=
  match m with
  | .exact q => path == q
  | .pattern pt => pt.test path

/-- `typeof x.matcher === "string" ? x.matcher : x.matcher.source`. -/
def matcherSource : Matcher → String
  | .exact p => p
  | .pattern pt => pt.source

/-- JS strict equality `x.matcher === path` where `path` is a string: true
only for an equal string; a RegExp is never strictly equal to a string. -/
def matcherEqPath (m : Matcher) (path : String) : Bool :=
  match m with
  | .exact q => q == path
  | .pattern _ => false

/-- `this.socket && this.socket.readyState === WebSocket.OPEN`. -/
def socketIsOpen (s : SocketState) : Bool :=
  match s.socket with
  | some t => t.readyState == ReadyState.OPEN
  | none => false

/-- `this.requests[id]` (truthiness lookup on the JS object). -/
def lookupRequest (reqs : List (Nat × Nat)) (id : Nat) : Option Nat :=
  (reqs.find? (fun p => p.1 == id)).map (fun p => p.2)

/-- `delete this.requests[id]`. -/
def removeRequest (reqs : List (Nat × Nat)) (id : Nat) : List (Nat × Nat) :=
  reqs.filter (fun p => p.1 != id)

/-- `this.requests[id] = resolve` (JS object key assignment overwrites). -/
def setRequest (reqs : List (Nat × Nat)) (id : Nat) (completion : Nat) :
    List (Nat × Nat) :=
  reqs.filter (fun p => p.1 != id) ++ [(id, completion)]

/-- Outcome of `Socket.request`: either a synchronous throw (before any state
change or frame is sent), or the new state, the emitted events, and the
allocated request id. -/
inductive RequestResult where
  | thrown (msg : String)
  | ok (state : SocketState) (events : List Event) (id : Nat)

/-- `Socket.request(path, method = "GET", body?)`. The completion callback of
the returned promise (including any `.then(handler)` chained by the caller)
is identified by `completion`. Throws synchronously when not connected;
otherwise allocates `id = this.idCounter++`, sends the REQUEST frame and
records the pending completion. -/
def request (s : SocketState) (completion : Nat) (path : String)
    (method : String) (body : Option String) : RequestResult :=
  if !s.connected then
    .thrown "Not connected."
  else
    .ok { s with idCounter := s.idCounter + 1,
                 requests := setRequest s.requests s.idCounter completion }
       [Event.send (OutFrame.request s.idCounter path method body)]
       s.idCounter

/-- `Socket.observe(path, handler)`: when connected, for a string path first
make the bootstrap request routed to `handler`, then send SUBSCRIBE; always
append the observation to the registry. -/
def observe (s : SocketState) (path : Matcher) (handler : Nat) :
    SocketState × List Event × Option String :=
  if s.connected then
    match path with
    | .exact p =>
      match request s handler p "GET" none with
      | .thrown m => (s, [], some m)
      | .ok s2 evs _ =>
        ({ s2 with observers := s2.observers ++ [⟨path, handler⟩] },
         evs ++ [Event.send (OutFrame.subscribe (matcherSource path))], none)
    | .pattern _ =>
      ({ s with observers := s.observers ++ [⟨path, handler⟩] },
       [Event.send (OutFrame.subscribe (matcherSource path))], none)
  else
    ({ s with observers := s.observers ++ [⟨path, handler⟩] }, [], none)

/-- The filter callback of `Socket.unobserve`, fused over the observer list:
keeps observations whose matcher is not strictly equal to `path`; for each
dropped observation sends UNSUBSCRIBE when the socket is open. Returns the
kept observations and the emitted events in callback order. -/
def unobserveFilter (sockOpen : Bool) (path : String) :
    List Observation → List Observation × List Event
  | [] => ([], [])
  | o :: rest =>
    if matcherEqPath o.matcher path then
      ((unobserveFilter sockOpen path rest).1,
       (if sockOpen then [Event.send (OutFrame.unsubscribe path)] else []) ++
         (unobserveFilter sockOpen path rest).2)
    else
      (o :: (unobserveFilter sockOpen path rest).1,
       (unobserveFilter sockOpen path rest).2)

/-- `Socket.unobserve(path)`. -/
def unobserve (s : SocketState) (path : String) : SocketState × List Event :=
  ({ s with observers := (unobserveFilter (socketIsOpen s) path s.observers).1 },
   (unobserveFilter (socketIsOpen s) path s.observers).2)

/-- One iteration of the HANDSHAKE_COMPLETE replay loop: send SUBSCRIBE for
the matcher, and for an exact path make the bootstrap request whose result is
routed to the stored handler (`this.request(x.matcher).then(x.handler)`). -/
def replayObserver (s : SocketState) (o : Observation) :
    SocketState × List Event × Option String :=
  match o.matcher with
  | .exact p =>
    match request s o.handler p "GET" none with
    | .thrown m => (s, [Event.send (OutFrame.subscribe p)], some m)
    | .ok s2 evs _ => (s2, Event.send (OutFrame.subscribe p) :: evs, none)
  | .pattern pt => (s, [Event.send (OutFrame.subscribe pt.source)], none)

/-- The `this.observers.forEach(...)` replay loop of the HANDSHAKE_COMPLETE
branch; an exception thrown by `request` aborts the loop, keeping the effects
already performed. -/
def replayObservers : SocketState → List Observation →
    SocketState × List Event × Option String
  | s, [] => (s, [], none)
  | s, o :: rest =>
    match replayObserver s o with
    | (s1, evs1, some m) => (s1, evs1, some m)
    | (s1, evs1, none) =>
      ((replayObservers s1 rest).1,
       evs1 ++ (replayObservers s1 rest).2.1,
       (replayObservers s1 rest).2.2)

/-- `Socket.handleWebsocketMessage`: parse failure is logged and dropped;
otherwise route by opcode to the UPDATE dispatch, the RESPONSE correlator, or
the HANDSHAKE_COMPLETE branch (which records the remote identity, persists
the computer name, then replays all observers). -/
def handleWebsocketMessage (s : SocketState) (frame : ParsedFrame) :
    SocketState × List Event × Option String :=
  match frame with
  | .invalid raw =>
    (s, [Event.log (raw ++ " was not valid JSON, ignoring.")], none)
  | .valid msg =>
    match msg with
    | .update path status content =>
      (s,
       (s.observers.filter (fun x => matcherTest x.matcher path)).map
         (fun x => Event.invoke x.handler { status := status, content := content }),
       none)
    | .response id status content =>
      match lookupRequest s.requests id with
      | some completion =>
        ({ s with requests := removeRequest s.requests id },
         [Event.invoke completion { status := status, content := content }],
         none)
      | none => (s, [], none)
    | .handshakeComplete version name token =>
      (((replayObservers
          { s with pushNotificationSubscriptionToken := token,
                   computerName := name,
                   computerVersion := version }
          s.observers).1),
       Event.log ("Connected to " ++ name) :: Event.configWrite name ::
         (replayObservers
           { s with pushNotificationSubscriptionToken := token,
                    computerName := name,
                    computerVersion := version }
           s.observers).2.1,
       (replayObservers
         { s with pushNotificationSubscriptionToken := token,
                  computerName := name,
                  computerVersion := version }
         s.observers).2.2)
    | .other => (s, [], none)

/-- `Socket.close()`: when a transport is owned, null out the three event
handlers, close and release the transport, and reset both flags; otherwise do
nothing. -/
def close (s : SocketState) : SocketState × List Event :=
  match s.socket with
  | some _ =>
    ({ s with socket := none, connecting := false, connected := false },
     [Event.setOnopen false, Event.setOnmessage false, Event.setOnclose false,
      Event.transportClose])
  | none => (s, [])

/-- The `onopen` handler registered by `connect`: mark connected and send the
handshake frame `"[" + MobileOpcode.HANDSHAKE + "]"`. -/
def onOpen (s : SocketState) : SocketState × List Event :=
  ({ s with connected := true, connecting := false },
   [Event.send OutFrame.handshake])

/-- The `onclose` handler registered by `connect`: a close while still
connecting is only logged; otherwise the session is marked disconnected. -/
def onClose (s : SocketState) (reason : String) : SocketState × List Event :=
  if s.connecting then
    (s, [Event.log ("Closed unexpectedly (" ++ reason ++ ")")])
  else
    ({ s with connected := false }, [Event.log "Connection to host closed."])

/-- `Socket.connect(code)`: set `connecting`, store the code, construct the
transport (`ctor` is the outcome of `new RiftSocket(code)`) and attach the
three handlers; a constructor throw is caught and logged, leaving the old
transport reference in place. -/
def connect (s : SocketState) (code : String) (ctor : Except String Transport) :
    SocketState × List Event :=
  match ctor with
  | .ok t =>
    ({ s with connecting := true, code := code, socket := some t },
     [Event.setOnopen true, Event.setOnmessage true, Event.setOnclose true])
  | .error msg =>
    ({ s with connecting := true, code := code },
     [Event.log "[-] Error during connect:", Event.log msg])

/-! ## Spec-side descriptions used to state the claims -/

/-- Number of exact-path matchers in an observer list (each consumes one
request id during the handshake replay). -/
def countExact : List Observation → Nat
  | [] => 0
  | o :: rest =>
    (match o.matcher with
     | .exact _ => 1
     | .pattern _ => 0) + countExact rest

/-- The events and pending-request entries the handshake replay is specified
to produce, starting from request id `counter`: per Observation one SUBSCRIBE
frame naming the exact path or the pattern source, and for each exact path
additionally one bootstrap REQUEST whose pending completion is that
Observation's handler. -/
def specReplay (counter : Nat) : List Observation → List Event × List (Nat × Nat)
  | [] => ([], [])
  | o :: rest =>
    match o.matcher with
    | .exact p =>
      (Event.send (OutFrame.subscribe p) ::
         Event.send (OutFrame.request counter p "GET" none) ::
         (specReplay (counter + 1) rest).1,
       (counter, o.handler) :: (specReplay (counter + 1) rest).2)
    | .pattern pt =>
      (Event.send (OutFrame.subscribe pt.source) :: (specReplay counter rest).1,
       (specReplay counter rest).2)

/-- The pending-request invariant: outstanding ids are pairwise distinct and
all lie below the sequence counter (so a future allocation can never collide
with an outstanding id). -/
def RequestsInv (s : SocketState) : Prop :=
  (s.requests.map Prod.fst).Nodup ∧ ∀ q ∈ s.requests, q.1 < s.idCounter

/-! ## Concrete base state used by witnesses -/

/-- The initial field values of a freshly constructed Socket. -/
def st0 : SocketState :=
  { connected := false, connecting := false, socket := none, computerName := "",
    computerVersion := "", pushNotificationSubscriptionToken := "", code := "",
    idCounter := 0, observers := [], requests := [] }

/-- Is an event an outbound frame? -/
def isSend : Event → Bool
  | .send _ => true
  | _ => false

/-! ## Claims -/

/-- C1: on an UPDATE frame `(path, status, content)` the router invokes the
handler of exactly the registered Observations whose matcher is string-equal
to `path` or whose pattern test accepts `path`, passing `{status, content}`,
in registration order; non-matching handlers are not invoked, no state
changes, and no error escapes. -/
theorem update_frame_dispatch (s : SocketState) (path : String) (status : Int)
    (content : JsonValue) :
    handleWebsocketMessage s (.valid (.update path status content)) =
      (s,
       (s.observers.filter (fun o => matcherTest o.matcher path)).map
         (fun o => Event.invoke o.handler { status := status, content := content }),
       none) := rfl

/-- C2: a RESPONSE frame with id `i` invokes the pending completion for `i`
exactly once with `{status, content}` and removes it from the pending set;
when no pending request carries id `i`, the frame has no observable effect. -/
theorem response_frame_correlation (s : SocketState) (id : Nat) (status : Int)
    (content : JsonValue) :
    (∀ completion, lookupRequest s.requests id = some completion →
       handleWebsocketMessage s (.valid (.response id status content)) =
         ({ s with requests := removeRequest s.requests id },
          [Event.invoke completion { status := status, content := content }],
          none) ∧
       lookupRequest (removeRequest s.requests id) id = none) ∧
    (lookupRequest s.requests id = none →
       handleWebsocketMessage s (.valid (.response id status content)) =
         (s, [], none)) := by
  constructor
  · intro completion hc
    refine ⟨by simp [handleWebsocketMessage, hc], ?_⟩
    have hfind : List.find? (fun p => p.1 == id)
        (List.filter (fun p => p.1 != id) s.requests) = none := by
      rw [List.find?_eq_none]
      intro p hp
      simpa using (List.mem_filter.mp hp).2
    simp [lookupRequest, removeRequest, hfind]
  · intro hc
    simp [handleWebsocketMessage, hc]

/-- Witness for C2: with `(5, 7)` pending, RESPONSE id 5 fires completion 7
once and empties the pending set; on the empty pending set it is a no-op. -/
theorem response_frame_correlation_witness :
    handleWebsocketMessage { st0 with requests := [(5, 7)], idCounter := 6 }
        (.valid (.response 5 200 "body")) =
      ({ st0 with requests := [], idCounter := 6 },
       [Event.invoke 7 { status := 200, content := "body" }], none) ∧
    handleWebsocketMessage st0 (.valid (.response 5 200 "body")) =
      (st0, [], none) :=
  ⟨((response_frame_correlation { st0 with requests := [(5, 7)], idCounter := 6 }
       5 200 "body").1 7 rfl).1,
   (response_frame_correlation st0 5 200 "body").2 rfl⟩

/-- C3: calling `request` while not connected throws synchronously (the
`thrown` outcome carries no state change, no frame, and no pending entry),
for every path, method, body and completion. -/
theorem request_not_connected_throws (s : SocketState) (h : s.connected = false)
    (completion : Nat) (path method : String) (body : Option String) :
    request s completion path method body = .thrown "Not connected." := by
  simp [request, h]

/-- Witness for C3 at the initial state. -/
theorem request_not_connected_throws_witness :
    st0.connected = false ∧
    request st0 0 "/lol-summoner/v1/current-summoner" "GET" none =
      .thrown "Not connected." :=
  ⟨rfl, request_not_connected_throws st0 rfl 0
    "/lol-summoner/v1/current-summoner" "GET" none⟩

/-- C5: `connect` emits no outbound frame, leaves the session in the
connecting state, and the registered open handler sets `connected := true`,
`connecting := false` and sends exactly the opcode-only handshake frame —
hence the handshake is the first outbound message on the new transport. -/
theorem handshake_first_outbound (s s2 : SocketState) (code : String)
    (t : Transport) :
    (connect s code (.ok t)).2.filter isSend = [] ∧
    (connect s code (.ok t)).1.connecting = true ∧
    onOpen s2 =
      ({ s2 with connected := true, connecting := false },
       [Event.send OutFrame.handshake]) :=
  ⟨rfl, rfl, rfl⟩

/-- C7: with a transport owned, `close` detaches the three event handlers
before closing the transport, resets both flags and drops the transport
reference; with no transport it is a no-op. -/
theorem close_detaches_and_resets (s : SocketState) :
    (∀ t, s.socket = some t →
       close s =
         ({ s with socket := none, connecting := false, connected := false },
          [Event.setOnopen false, Event.setOnmessage false,
           Event.setOnclose false, Event.transportClose])) ∧
    (s.socket = none → close s = (s, [])) := by
  constructor
  · intro t ht
    simp [close, ht]
  · intro h
    simp [close, h]

/-- Witness for C7: both branches at concrete states. -/
theorem close_detaches_and_resets_witness :
    close { st0 with socket := some { readyState := ReadyState.OPEN },
                     connected := true } =
      ({ st0 with socket := none, connecting := false, connected := false },
       [Event.setOnopen false, Event.setOnmessage false, Event.setOnclose false,
        Event.transportClose]) ∧
    close st0 = (st0, []) :=
  ⟨(close_detaches_and_resets
      { st0 with socket := some { readyState := ReadyState.OPEN },
                 connected := true }).1 { readyState := ReadyState.OPEN } rfl,
   (close_detaches_and_resets st0).2 rfl⟩

/-- C8: a text frame that fails to parse is logged and dropped: the state is
returned unchanged in every field and no error propagates. -/
theorem invalid_frame_dropped (s : SocketState) (raw : String) :
    handleWebsocketMessage s (.invalid raw) =
      (s, [Event.log (raw ++ " was not valid JSON, ignoring.")], none) := rfl

/-- The fused unobserve filter, characterized: the kept observations are those
whose matcher is not the removed path, and one UNSUBSCRIBE is emitted per
dropped observation when the socket is open. -/
theorem unobserveFilter_spec (b : Bool) (p : String) (l : List Observation) :
    unobserveFilter b p l =
      (l.filter (fun o => !matcherEqPath o.matcher p),
       if b then
         (l.filter (fun o => matcherEqPath o.matcher p)).map
           (fun _ => Event.send (OutFrame.unsubscribe p))
       else []) := by
  induction l with
  | nil => cases b <;> simp [unobserveFilter]
  | cons o rest ih =>
    cases hm : matcherEqPath o.matcher p <;> cases b <;>
      simp [unobserveFilter, ih, hm, List.filter_cons]

/-- Counterexample for C6 as stated: with two Observations registered on the
same exact path "/a" and an open transport, `unobserve "/a"` sends the
UNSUBSCRIBE frame for "/a" twice, not exactly once per distinct matcher
removed (only one distinct matcher, "/a", is removed). -/
theorem unobserve_distinct_once_cex :
    (unobserve
        { st0 with connected := true,
                   socket := some { readyState := ReadyState.OPEN },
                   observers := [⟨Matcher.exact "/a", 1⟩, ⟨Matcher.exact "/a", 2⟩] }
        "/a").2 =
      [Event.send (OutFrame.unsubscribe "/a"),
       Event.send (OutFrame.unsubscribe "/a")] ∧
    (unobserve
        { st0 with connected := true,
                   socket := some { readyState := ReadyState.OPEN },
                   observers := [⟨Matcher.exact "/a", 1⟩, ⟨Matcher.exact "/a", 2⟩] }
        "/a").2.count (Event.send (OutFrame.unsubscribe "/a")) ≠ 1 :=
  ⟨rfl, by decide⟩

/-- C6 (amended): `unobserve p` removes exactly the Observations whose matcher
is value-equal to `p` (pattern matchers are never removed) and, when the
session owns an open transport, sends one UNSUBSCRIBE frame for `p` per
removed Observation; when no Observation matches `p` it is a no-op: the state
is unchanged and no frame is sent. -/
theorem unobserve_removes_per_observation (s : SocketState) (p : String) :
    (∀ t, s.socket = some t → t.readyState = ReadyState.OPEN →
       unobserve s p =
         ({ s with observers :=
              s.observers.filter (fun o => !matcherEqPath o.matcher p) },
          (s.observers.filter (fun o => matcherEqPath o.matcher p)).map
            (fun _ => Event.send (OutFrame.unsubscribe p)))) ∧
    ((∀ o ∈ s.observers, matcherEqPath o.matcher p = false) →
       unobserve s p = (s, [])) := by
  constructor
  · intro t ht hrs
    have hopen : socketIsOpen s = true := by simp [socketIsOpen, ht, hrs]
    simp [unobserve, unobserveFilter_spec, hopen]
  · intro hno
    have h1 : s.observers.filter (fun o => !matcherEqPath o.matcher p) =
        s.observers := by
      rw [List.filter_eq_self]
      intro o ho
      simp [hno o ho]
    have h2 : s.observers.filter (fun o => matcherEqPath o.matcher p) = [] := by
      rw [List.filter_eq_nil_iff]
      intro o ho
      simp [hno o ho]
    cases hb : socketIsOpen s <;>
      simp [unobserve, unobserveFilter_spec, hb, h1, h2]

/-- Witness for the amended C6: an open-transport state where one exact-path
Observation matches and a pattern Observation plus another exact path do not;
and a pattern-only state where unobserve is a no-op. -/
theorem unobserve_removes_per_observation_witness :
    unobserve
        { st0 with connected := true,
                   socket := some { readyState := ReadyState.OPEN },
                   observers :=
                     [⟨Matcher.exact "/a", 1⟩,
                      ⟨Matcher.pattern ⟨"/lol", fun str => str.startsWith "/lol"⟩, 2⟩,
                      ⟨Matcher.exact "/b", 3⟩] }
        "/a" =
      ({ st0 with connected := true,
                  socket := some { readyState := ReadyState.OPEN },
                  observers :=
                    [⟨Matcher.pattern ⟨"/lol", fun str => str.startsWith "/lol"⟩, 2⟩,
                     ⟨Matcher.exact "/b", 3⟩] },
       [Event.send (OutFrame.unsubscribe "/a")]) ∧
    unobserve
        { st0 with connected := true,
                   socket := some { readyState := ReadyState.OPEN },
                   observers :=
                     [⟨Matcher.pattern ⟨"/lol", fun str => str.startsWith "/lol"⟩, 2⟩] }
        "/zz" =
      ({ st0 with connected := true,
                  socket := some { readyState := ReadyState.OPEN },
                  observers :=
                    [⟨Matcher.pattern ⟨"/lol", fun str => str.startsWith "/lol"⟩, 2⟩] },
       []) :=
  ⟨(unobserve_removes_per_observation
      { st0 with connected := true,
                 socket := some { readyState := ReadyState.OPEN },
                 observers :=
                   [⟨Matcher.exact "/a", 1⟩,
                    ⟨Matcher.pattern ⟨"/lol", fun str => str.startsWith "/lol"⟩, 2⟩,
                    ⟨Matcher.exact "/b", 3⟩] }
      "/a").1 { readyState := ReadyState.OPEN } rfl rfl,
   (unobserve_removes_per_observation
      { st0 with connected := true,
                 socket := some { readyState := ReadyState.OPEN },
                 observers :=
                   [⟨Matcher.pattern ⟨"/lol", fun str => str.startsWith "/lol"⟩, 2⟩] }
      "/zz").2 (by
        intro o ho
        rw [List.mem_singleton] at ho
        subst ho
        rfl)⟩

/-- C10: a transport close event arriving while `connecting = true` only logs
the reason and returns: every session field, including `connecting` itself,
is left unchanged. -/
theorem close_during_connect_preserves_state (s : SocketState) (reason : String)
    (h : s.connecting = true) :
    onClose s reason =
      (s, [Event.log ("Closed unexpectedly (" ++ reason ++ ")")]) := by
  simp [onClose, h]

/-- Witness for C10 at a mid-connect state. -/
theorem close_during_connect_preserves_state_witness :
    onClose { st0 with connecting := true, code := "ABC123" } "timeout" =
      ({ st0 with connecting := true, code := "ABC123" },
       [Event.log ("Closed unexpectedly (" ++ "timeout" ++ ")")]) :=
  close_during_connect_preserves_state
    { st0 with connecting := true, code := "ABC123" } "timeout" rfl

/-! ## Handshake replay and the pending-request invariant -/

/-- Filtering out a key larger than every key present changes nothing. -/
theorem requests_filter_fresh (l : List (Nat × Nat)) (c : Nat)
    (hb : ∀ q ∈ l, q.1 < c) : l.filter (fun q => q.1 != c) = l := by
  rw [List.filter_eq_self]
  intro q hq
  simpa using Nat.ne_of_lt (hb q hq)

/-- `request` while connected: allocates the current counter as the id, sends
one REQUEST frame, and records the pending completion under that id. -/
theorem request_connected (s : SocketState) (hc : s.connected = true)
    (completion : Nat) (path method : String) (body : Option String) :
    request s completion path method body =
      .ok { s with idCounter := s.idCounter + 1,
                   requests := setRequest s.requests s.idCounter completion }
        [Event.send (OutFrame.request s.idCounter path method body)]
        s.idCounter := by
  simp [request, hc]

/-- One replay iteration on an exact-path Observation while connected, with
no stale pending id at the counter: SUBSCRIBE then the bootstrap REQUEST. -/
theorem replayObserver_exact (s : SocketState) (hc : s.connected = true)
    (o : Observation) (p : String) (hom : o.matcher = .exact p)
    (hb : ∀ q ∈ s.requests, q.1 < s.idCounter) :
    replayObserver s o =
      ({ s with idCounter := s.idCounter + 1,
                requests := s.requests ++ [(s.idCounter, o.handler)] },
       [Event.send (OutFrame.subscribe p),
        Event.send (OutFrame.request s.idCounter p "GET" none)], none) := by
  simp [replayObserver, hom, request_connected s hc, setRequest,
    requests_filter_fresh s.requests s.idCounter hb]

/-- The handshake replay loop, while connected and with all outstanding ids
below the counter, produces exactly the spec-side events and appends exactly
the spec-side pending entries, consuming one id per exact-path Observation. -/
theorem replayObservers_spec (obs : List Observation) :
    ∀ s : SocketState, s.connected = true →
    (∀ q ∈ s.requests, q.1 < s.idCounter) →
    replayObservers s obs =
      ({ s with idCounter := s.idCounter + countExact obs,
                requests := s.requests ++ (specReplay s.idCounter obs).2 },
       (specReplay s.idCounter obs).1, none) := by
  induction obs with
  | nil =>
    intro s hc hb
    simp [replayObservers, specReplay, countExact]
  | cons o rest ih =>
    intro s hc hb
    rcases hom : o.matcher with p | pt
    · have hb2 : ∀ q ∈ s.requests ++ [(s.idCounter, o.handler)],
          q.1 < s.idCounter + 1 := by
        intro q hq
        rcases List.mem_append.mp hq with h | h
        · exact Nat.lt_succ_of_lt (hb q h)
        · rw [List.mem_singleton] at h
          subst h
          exact Nat.lt_succ_self _
      have ih2 := ih { s with idCounter := s.idCounter + 1,
                              requests := s.requests ++ [(s.idCounter, o.handler)] }
        hc hb2
      simp only [replayObservers, replayObserver_exact s hc o p hom hb, ih2,
        specReplay, countExact, hom]
      have harith : s.idCounter + 1 + countExact rest
          = s.idCounter + (1 + countExact rest) := by omega
      simp [harith]
    · have ih2 := ih s hc hb
      simp only [replayObservers, replayObserver, hom, ih2, specReplay,
        countExact]
      simp

/-- C4: on HANDSHAKE_COMPLETE `[op, remoteVersion, remoteName, token]` while
connected (with outstanding ids below the counter), the remote identity and
notification token are recorded, the remote name is persisted, and the replay
sends one SUBSCRIBE per registered Observation plus, per exact-path matcher,
one bootstrap REQUEST whose pending completion is that Observation's own
handler. -/
theorem handshake_complete_replay (s : SocketState)
    (version name token : String) (hc : s.connected = true)
    (hb : ∀ q ∈ s.requests, q.1 < s.idCounter) :
    handleWebsocketMessage s (.valid (.handshakeComplete version name token)) =
      ({ s with pushNotificationSubscriptionToken := token,
                computerName := name,
                computerVersion := version,
                idCounter := s.idCounter + countExact s.observers,
                requests := s.requests ++ (specReplay s.idCounter s.observers).2 },
       Event.log ("Connected to " ++ name) :: Event.configWrite name ::
         (specReplay s.idCounter s.observers).1,
       none) := by
  have h := replayObservers_spec s.observers
    { s with pushNotificationSubscriptionToken := token,
             computerName := name, computerVersion := version } hc hb
  simp [handleWebsocketMessage, h]

/-- Witness for C4, the spec scenario: one Observation on
"/lol-gameflow/v1/session" registered, HANDSHAKE_COMPLETE arrives → one
SUBSCRIBE and one REQUEST for that path, identity recorded, and the bootstrap
response routed to handler 1 via the pending entry `(0, 1)`. -/
theorem handshake_complete_replay_witness :
    handleWebsocketMessage
        { st0 with connected := true,
                   observers := [⟨Matcher.exact "/lol-gameflow/v1/session", 1⟩] }
        (.valid (.handshakeComplete "1.2.3" "DESKTOP" "token123")) =
      ({ st0 with connected := true,
                  observers := [⟨Matcher.exact "/lol-gameflow/v1/session", 1⟩],
                  pushNotificationSubscriptionToken := "token123",
                  computerName := "DESKTOP",
                  computerVersion := "1.2.3",
                  idCounter := 1,
                  requests := [(0, 1)] },
       [Event.log ("Connected to " ++ "DESKTOP"), Event.configWrite "DESKTOP",
        Event.send (OutFrame.subscribe "/lol-gameflow/v1/session"),
        Event.send (OutFrame.request 0 "/lol-gameflow/v1/session" "GET" none)],
       none) :=
  handshake_complete_replay
    { st0 with connected := true,
               observers := [⟨Matcher.exact "/lol-gameflow/v1/session", 1⟩] }
    "1.2.3" "DESKTOP" "token123" rfl (by
      intro q hq
      simp [st0] at hq)

/-- A filtered pending list keeps distinct ids distinct. -/
theorem nodup_fst_filter (l : List (Nat × Nat)) (f : Nat × Nat → Bool)
    (h : (l.map Prod.fst).Nodup) : ((l.filter f).map Prod.fst).Nodup :=
  List.Nodup.sublist (List.Sublist.map Prod.fst (List.filter_sublist l)) h

/-- Allocating the next id under the invariant keeps the invariant. -/
theorem requestsInv_alloc (s : SocketState) (hInv : RequestsInv s)
    (completion : Nat) :
    RequestsInv { s with idCounter := s.idCounter + 1,
                         requests := s.requests ++ [(s.idCounter, completion)] } := by
  obtain ⟨hnd, hbd⟩ := hInv
  constructor
  · rw [List.map_append, List.nodup_append]
    refine ⟨hnd, by simp, ?_⟩
    intro a ha hmem
    simp only [List.map_cons, List.map_nil, List.mem_singleton] at hmem
    subst hmem
    rcases List.mem_map.mp ha with ⟨q, hq, hfst⟩
    exact absurd hfst (Nat.ne_of_lt (hbd q hq))
  · intro q hq
    rcases List.mem_append.mp hq with h | h
    · exact Nat.lt_succ_of_lt (hbd q h)
    · rw [List.mem_singleton] at h
      subst h
      exact Nat.lt_succ_self _

/-- The handshake replay loop preserves the pending-request invariant and
never decreases the sequence counter, whether or not it aborts. -/
theorem requestsInv_replay (obs : List Observation) :
    ∀ s : SocketState, RequestsInv s →
      RequestsInv (replayObservers s obs).1 ∧
      s.idCounter ≤ (replayObservers s obs).1.idCounter := by
  induction obs with
  | nil =>
    intro s h
    exact ⟨h, Nat.le_refl _⟩
  | cons o rest ih =>
    intro s h
    rcases hom : o.matcher with p | pt
    · cases hc : s.connected
      · have hreq : request s o.handler p "GET" none =
            .thrown "Not connected." := by
          simp [request, hc]
        simp only [replayObservers, replayObserver, hom, hreq]
        exact ⟨h, Nat.le_refl _⟩
      · have hstep := replayObserver_exact s hc o p hom h.2
        have hs2 := requestsInv_alloc s h o.handler
        have hrest := ih { s with idCounter := s.idCounter + 1,
                                  requests := s.requests ++ [(s.idCounter, o.handler)] }
          hs2
        simp only [replayObservers, hstep]
        refine ⟨hrest.1, ?_⟩
        exact Nat.le_trans (Nat.le_succ _) hrest.2
    · simp only [replayObservers, replayObserver, hom]
      exact ih s h

/-- `request` while not connected throws before performing any effect. -/
theorem request_not_connected_eq (s : SocketState) (hc : s.connected = false)
    (completion : Nat) (path method : String) (body : Option String) :
    request s completion path method body = .thrown "Not connected." := by
  simp [request, hc]

/-- The invariant only depends on the pending set and the counter. -/
theorem requestsInv_congr (s1 s2 : SocketState) (hr : s2.requests = s1.requests)
    (hi : s2.idCounter = s1.idCounter) (h : RequestsInv s1) : RequestsInv s2 := by
  unfold RequestsInv at h ⊢
  rw [hr, hi]
  exact h

/-- Overwrite-insertion at the current counter under the invariant is plain
append (no outstanding id can equal the counter), and keeps the invariant. -/
theorem requestsInv_setRequest (s : SocketState) (hInv : RequestsInv s)
    (completion : Nat) :
    RequestsInv { s with idCounter := s.idCounter + 1,
                         requests := setRequest s.requests s.idCounter completion } := by
  have hset : setRequest s.requests s.idCounter completion
      = s.requests ++ [(s.idCounter, completion)] := by
    rw [setRequest, requests_filter_fresh s.requests s.idCounter hInv.2]
  rw [hset]
  exact requestsInv_alloc s hInv completion

/-- C9: starting from a state satisfying the pending-id invariant, every
operation preserves it; `request` allocates exactly the current counter —
an id no outstanding request carries — and bumps the counter, and RESPONSE
handling (like every message branch) never lowers the counter. -/
theorem pending_ids_unique_invariant (s : SocketState) (hInv : RequestsInv s) :
    (∀ completion path method body s2 evs id,
       request s completion path method body = .ok s2 evs id →
         RequestsInv s2 ∧ id = s.idCounter ∧ s2.idCounter = s.idCounter + 1 ∧
         id ∉ s.requests.map Prod.fst) ∧
    (∀ frame, RequestsInv (handleWebsocketMessage s frame).1 ∧
       s.idCounter ≤ (handleWebsocketMessage s frame).1.idCounter) ∧
    (∀ m completion, RequestsInv (observe s m completion).1) ∧
    (∀ p, RequestsInv (unobserve s p).1) ∧
    RequestsInv (close s).1 ∧
    (∀ c ctor, RequestsInv (connect s c ctor).1) ∧
    RequestsInv (onOpen s).1 ∧
    (∀ r, RequestsInv (onClose s r).1) := by
  refine ⟨?_, ?_, ?_, ?_, ?_, ?_, ?_, ?_⟩
  · intro completion path method body s2 evs id hreq
    cases hc : s.connected
    · rw [request_not_connected_eq s hc completion path method body] at hreq
      exact absurd hreq (by simp)
    · rw [request_connected s hc completion path method body] at hreq
      injection hreq with h1 h2 h3
      subst h1
      subst h3
      refine ⟨requestsInv_setRequest s hInv completion, rfl, rfl, ?_⟩
      intro hmem
      rcases List.mem_map.mp hmem with ⟨q, hq, hfst⟩
      exact absurd hfst (Nat.ne_of_lt (hInv.2 q hq))
  · intro frame
    rcases frame with raw | msg
    · exact ⟨hInv, Nat.le_refl _⟩
    · rcases msg with ⟨path, status, content⟩ | ⟨id, status, content⟩ |
        ⟨v, n, tok⟩ | _
      · exact ⟨hInv, Nat.le_refl _⟩
      · rcases hl : lookupRequest s.requests id with _ | completion
        · simp only [handleWebsocketMessage, hl]
          exact ⟨hInv, Nat.le_refl _⟩
        · simp only [handleWebsocketMessage, hl]
          refine ⟨⟨nodup_fst_filter _ _ hInv.1, ?_⟩, Nat.le_refl _⟩
          intro q hq
          exact hInv.2 q (List.mem_of_mem_filter hq)
      · have hrep := requestsInv_replay s.observers
          { s with pushNotificationSubscriptionToken := tok,
                   computerName := n, computerVersion := v } hInv
        simp only [handleWebsocketMessage]
        exact hrep
      · exact ⟨hInv, Nat.le_refl _⟩
  · intro m completion
    cases hc : s.connected
    · simp only [observe, hc, Bool.false_eq_true, if_false]
      exact requestsInv_congr s _ rfl rfl hInv
    · rcases hm : m with p | pt
      · simp only [observe, hc, if_true,
          request_connected s hc completion p "GET" none]
        exact requestsInv_congr
          { s with idCounter := s.idCounter + 1,
                   requests := setRequest s.requests s.idCounter completion }
          _ rfl rfl (requestsInv_setRequest s hInv completion)
      · simp only [observe, hc, if_true]
        exact requestsInv_congr s _ rfl rfl hInv
  · intro p
    exact requestsInv_congr s _ rfl rfl hInv
  · rcases hsock : s.socket with _ | t
    · simp only [close, hsock]
      exact hInv
    · simp only [close, hsock]
      exact requestsInv_congr s _ rfl rfl hInv
  · intro c ctor
    rcases ctor with msg | t
    · simp only [connect]
      exact requestsInv_congr s _ rfl rfl hInv
    · simp only [connect]
      exact requestsInv_congr s _ rfl rfl hInv
  · exact requestsInv_congr s _ rfl rfl hInv
  · intro r
    cases hcn : s.connecting
    · simp only [onClose, hcn, Bool.false_eq_true, if_false]
      exact requestsInv_congr s _ rfl rfl hInv
    · simp only [onClose, hcn, if_true]
      exact hInv

/-- Witness for C9: the invariant holds at a connected state with one pending
request `(0, 9)` and counter 1, and is preserved by handling the matching
RESPONSE frame. -/
theorem pending_ids_unique_invariant_witness :
    RequestsInv { st0 with connected := true, requests := [(0, 9)], idCounter := 1 } ∧
    RequestsInv (handleWebsocketMessage
        { st0 with connected := true, requests := [(0, 9)], idCounter := 1 }
        (.valid (.response 0 200 "x"))).1 :=
  ⟨by
      constructor
      · simp [st0]
      · intro q hq
        simp [st0] at hq
        simp [hq],
   ((pending_ids_unique_invariant
       { st0 with connected := true, requests := [(0, 9)], idCounter := 1 }
       (by
         constructor
         · simp [st0]
         · intro q hq
           simp [st0] at hq
           simp [hq])).2.1 (.valid (.response 0 200 "x"))).1⟩

end Mimic
